import Mathlib

/-!
# Verification of the `mongo` repository (Go MongoDB wrapper)

Shallow embedding of the two client revisions found in the repository:

* `Mongodb` — the final revision (`mongodb.go`): `Client` with an explicit
  connection-lifecycle state (`connected` flag plus an optional client
  handle), argument validation, and id-based CRUD operations filtering on
  the `"_id"` field.
* `Mongo` — the earlier revision (`mongo.go`): `MongoClient`, a stateless
  value that opens a fresh connection per call, performs no argument
  validation, and filters on the application-chosen `"id"` field.

The MongoDB driver is external to the repository, so every driver call is
modelled as an oracle passed to the operation: `DriverConn` fixes the
outcomes of `mongo.Connect` / `Ping` / `Disconnect`, and each CRUD method
takes the driver method it delegates to as a function argument.  This makes
the exact arguments handed to the driver (collection reference, filter,
update document, payload) visible in the theorems, while keeping the
embedding line-for-line faithful to the Go control flow.

Go `error` values are modelled as their message strings (`GoError`);
`nil`-able Go values are `Option`s.
-/

/-- Go `error` values, identified by their message (all errors produced by
this repository are `errors.New`/`fmt.Errorf` message strings, and driver
errors are opaque values we only pass around). -/
abbrev GoError := String

/-- An abstract live `*mongo.Client` handle produced by `mongo.Connect`. -/
structure MongoHandle where
  hid : Nat
deriving DecidableEq, Repr

/-- A BSON scalar value as used in the repository's filters. -/
inductive BVal where
  | str : String → BVal
  | int : Int → BVal
deriving DecidableEq, Repr

/-- A `bson.M` document: ordered field/value pairs. -/
abbrev BsonM := List (String × BVal)

/-- The update document `bson.D{{"$set", data}}` built by the update
operations; `data` is the caller's payload (`none` models a Go `nil`
`interface{}`). -/
inductive UpdateSpec where
  | set : Option Nat → UpdateSpec
deriving DecidableEq, Repr

namespace Mongodb

/-- The state of `mongodb.Client` (final revision): connection URL,
database name, the `client *mongo.Client` field (`none` = Go `nil`) and the
`connected` flag.  The `sync.RWMutex` only serializes access and has no
sequential behaviour, so it is not part of the state. -/
structure Client where
  connectionUrl : String
  databaseName : String
  client : Option MongoHandle
  connected : Bool
deriving DecidableEq, Repr

/-- Outcomes of the three connection-lifecycle driver calls used by
`connect` and `Close`: `mongo.Connect`, `client.Ping` and
`client.Disconnect` (`none` = success for the latter two). -/
structure DriverConn where
  connectResult : Except GoError MongoHandle
  pingErr : Option GoError
  disconnectErr : Option GoError
deriving Repr

/-- A `*mongo.Collection` reference as handed to a driver call: the client
handle it was obtained through (`none` models a collection obtained through
a `nil` client), the database name and the collection name. -/
structure CollectionRef where
  handle : Option MongoHandle
  database : String
  collection : String
deriving DecidableEq, Repr

/-- `Client.connect` (mongodb.go).  Faithful to the Go source, including
the shadowed `err` in the ping-failure branch: there the inner
`err := client.Disconnect(ctx)` shadows the ping error, so when the ping
fails but the cleanup `Disconnect` succeeds, the final `return err` returns
the (nil) disconnect error, leaving the state disconnected while reporting
success. -/
def Client.connect (env : DriverConn) (c : Client) : Client × Option GoError :=
  if c.connected then (c, none)
  else
    match env.connectResult with
    | .error e => (c, some e)
    | .ok handle =>
      match env.pingErr with
      | some _ =>
        match env.disconnectErr with
        | some dErr => (c, some dErr)
        | none => (c, none)
      | none => ({ c with client := some handle, connected := true }, none)

/-- `NewMongoClient` (mongodb.go): validates the URL and database name,
then eagerly connects, wrapping a connection error as
`fmt.Errorf("failed to connect to MongoDB: %w", err)`. -/
def NewMongoClient (env : DriverConn) (connectionURL : String)
    (databaseName : String) : Except GoError Client :=
  if connectionURL = "" then .error "connection URL cannot be empty"
  else if databaseName = "" then .error "database name cannot be empty"
  else
    match Client.connect env
        { connectionUrl := connectionURL, databaseName := databaseName
          client := none, connected := false } with
    | (c, none) => .ok c
    | (_, some e) => .error ("failed to connect to MongoDB: " ++ e)

/-- `Client.Close` (mongodb.go): no-op returning `nil` when not connected
or the handle is `nil`; otherwise delegates to `Disconnect`, clears the
state and returns the driver's result. -/
def Client.Close (env : DriverConn) (c : Client) : Client × Option GoError :=
  if !c.connected || c.client.isNone then (c, none)
  else ({ c with connected := false, client := none }, env.disconnectErr)

/-- `Client.getClient` (mongodb.go): returns the cached handle when
connected, otherwise reconnects on demand and returns whatever
`c.client` then holds (possibly `nil`, when `connect` reported success
without establishing a connection). -/
def Client.getClient (env : DriverConn) (c : Client) :
    Client × Except GoError (Option MongoHandle) :=
  if c.connected && c.client.isSome then (c, .ok c.client)
  else
    match Client.connect env c with
    | (c2, some e) => (c2, .error e)
    | (c2, none) => (c2, .ok c2.client)

/-- `Client.validateParams` (mongodb.go). -/
def Client.validateParams (collectionName : String) : Option GoError :=
  if collectionName = "" then some "collection name cannot be empty" else none

/-- `Client.getCollection` (mongodb.go): validate the collection name, then
obtain the client and build the collection reference. -/
def Client.getCollection (env : DriverConn) (c : Client)
    (collectionName : String) : Client × Except GoError CollectionRef :=
  match Client.validateParams collectionName with
  | some e => (c, .error e)
  | none =>
    match Client.getClient env c with
    | (c2, .error e) => (c2, .error e)
    | (c2, .ok h) =>
      (c2, .ok { handle := h, database := c2.databaseName
                 collection := collectionName })

/-- `Client.IsConnected` (mongodb.go). -/
def Client.IsConnected (c : Client) : Bool :=
  c.connected

/-- `Client.Add` (mongodb.go): reject `nil` data, obtain the collection,
then return `collection.InsertOne(ctx, data)` verbatim.  `insertOne` is the
driver's `InsertOne` method; its result type `R` is abstract. -/
def Client.Add {R : Type} (env : DriverConn) (c : Client)
    (collectionName : String) (data : Option Nat)
    (insertOne : CollectionRef → Nat → Except GoError R) :
    Client × Except GoError R :=
  match data with
  | none => (c, .error "data cannot be nil")
  | some d =>
    match Client.getCollection env c collectionName with
    | (c2, .error e) => (c2, .error e)
    | (c2, .ok coll) => (c2, insertOne coll d)

/-- `Client.AddMany` (mongodb.go): reject an empty slice, obtain the
collection, then return `collection.InsertMany(ctx, data)` verbatim. -/
def Client.AddMany {R : Type} (env : DriverConn) (c : Client)
    (collectionName : String) (data : List Nat)
    (insertMany : CollectionRef → List Nat → Except GoError R) :
    Client × Except GoError R :=
  if data.length = 0 then (c, .error "data slice cannot be empty")
  else
    match Client.getCollection env c collectionName with
    | (c2, .error e) => (c2, .error e)
    | (c2, .ok coll) => (c2, insertMany coll data)

/-- `Client.Update` (mongodb.go): reject an empty id and `nil` data, then
return `collection.UpdateOne(ctx, bson.M{"_id": id}, bson.D{{"$set", data}})`
verbatim. -/
def Client.Update {R : Type} (env : DriverConn) (c : Client)
    (collectionName : String) (id : String) (data : Option Nat)
    (updateOne : CollectionRef → BsonM → UpdateSpec → Except GoError R) :
    Client × Except GoError R :=
  if id = "" then (c, .error "id cannot be empty")
  else
    match data with
    | none => (c, .error "data cannot be nil")
    | some d =>
      match Client.getCollection env c collectionName with
      | (c2, .error e) => (c2, .error e)
      | (c2, .ok coll) =>
        (c2, updateOne coll [("_id", BVal.str id)] (UpdateSpec.set (some d)))

/-- `Client.UpdateCustom` (mongodb.go): reject a `nil` filter and `nil`
data, then `collection.UpdateOne(ctx, filter, bson.D{{"$set", data}}, ...)`
verbatim. -/
def Client.UpdateCustom {R : Type} (env : DriverConn) (c : Client)
    (collectionName : String) (filter : Option BsonM) (data : Option Nat)
    (updateOne : CollectionRef → BsonM → UpdateSpec → Except GoError R) :
    Client × Except GoError R :=
  match filter with
  | none => (c, .error "filter cannot be nil")
  | some f =>
    match data with
    | none => (c, .error "data cannot be nil")
    | some d =>
      match Client.getCollection env c collectionName with
      | (c2, .error e) => (c2, .error e)
      | (c2, .ok coll) => (c2, updateOne coll f (UpdateSpec.set (some d)))

/-- `Client.UpdateMany` (mongodb.go): reject a `nil` filter and `nil` data,
then `collection.UpdateMany(ctx, filter, bson.D{{"$set", data}}, ...)`
verbatim. -/
def Client.UpdateMany {R : Type} (env : DriverConn) (c : Client)
    (collectionName : String) (filter : Option BsonM) (data : Option Nat)
    (updateMany : CollectionRef → BsonM → UpdateSpec → Except GoError R) :
    Client × Except GoError R :=
  match filter with
  | none => (c, .error "filter cannot be nil")
  | some f =>
    match data with
    | none => (c, .error "data cannot be nil")
    | some d =>
      match Client.getCollection env c collectionName with
      | (c2, .error e) => (c2, .error e)
      | (c2, .ok coll) => (c2, updateMany coll f (UpdateSpec.set (some d)))

/-- `Client.Delete` (mongodb.go): reject an empty id, then
`collection.DeleteOne(ctx, bson.M{"_id": id})` verbatim. -/
def Client.Delete {R : Type} (env : DriverConn) (c : Client)
    (collectionName : String) (id : String)
    (deleteOne : CollectionRef → BsonM → Except GoError R) :
    Client × Except GoError R :=
  if id = "" then (c, .error "id cannot be empty")
  else
    match Client.getCollection env c collectionName with
    | (c2, .error e) => (c2, .error e)
    | (c2, .ok coll) => (c2, deleteOne coll [("_id", BVal.str id)])

/-- `Client.DeleteCustom` (mongodb.go): reject a `nil` filter, then
`collection.DeleteOne(ctx, filter)` verbatim. -/
def Client.DeleteCustom {R : Type} (env : DriverConn) (c : Client)
    (collectionName : String) (filter : Option BsonM)
    (deleteOne : CollectionRef → BsonM → Except GoError R) :
    Client × Except GoError R :=
  match filter with
  | none => (c, .error "filter cannot be nil")
  | some f =>
    match Client.getCollection env c collectionName with
    | (c2, .error e) => (c2, .error e)
    | (c2, .ok coll) => (c2, deleteOne coll f)

/-- `Client.DeleteMany` (mongodb.go): reject a `nil` filter, then
`collection.DeleteMany(ctx, filter)` verbatim. -/
def Client.DeleteMany {R : Type} (env : DriverConn) (c : Client)
    (collectionName : String) (filter : Option BsonM)
    (deleteMany : CollectionRef → BsonM → Except GoError R) :
    Client × Except GoError R :=
  match filter with
  | none => (c, .error "filter cannot be nil")
  | some f =>
    match Client.getCollection env c collectionName with
    | (c2, .error e) => (c2, .error e)
    | (c2, .ok coll) => (c2, deleteMany coll f)

/-- `Client.Get` (mongodb.go): reject an empty id, then return the
`SingleResult` of `collection.FindOne(ctx, bson.M{"_id": id})` paired with
a `nil` error (`FindOne` itself does not fail; `R` is the `SingleResult`
type). -/
def Client.Get {R : Type} (env : DriverConn) (c : Client)
    (collectionName : String) (id : String)
    (findOne : CollectionRef → BsonM → R) :
    Client × Except GoError R :=
  if id = "" then (c, .error "id cannot be empty")
  else
    match Client.getCollection env c collectionName with
    | (c2, .error e) => (c2, .error e)
    | (c2, .ok coll) => (c2, .ok (findOne coll [("_id", BVal.str id)]))

/-- `Client.GetCustom` (mongodb.go): reject a `nil` filter, then return
`collection.FindOne(ctx, filter, ...)` paired with a `nil` error. -/
def Client.GetCustom {R : Type} (env : DriverConn) (c : Client)
    (collectionName : String) (filter : Option BsonM)
    (findOne : CollectionRef → BsonM → R) :
    Client × Except GoError R :=
  match filter with
  | none => (c, .error "filter cannot be nil")
  | some f =>
    match Client.getCollection env c collectionName with
    | (c2, .error e) => (c2, .error e)
    | (c2, .ok coll) => (c2, .ok (findOne coll f))

/-- `Client.FindByID` (mongodb.go): reject an empty id and a `nil` result
pointer, run `collection.Find(ctx, bson.M{"_id": id})`, then
`cursor.All(ctx, result)`.  `Cursor` outcomes are abstract `Nat` tokens;
`resultPtr` is the caller's result pointer (`none` = Go `nil`). -/
def Client.FindByID (env : DriverConn) (c : Client)
    (collectionName : String) (id : String) (resultPtr : Option Nat)
    (find : CollectionRef → BsonM → Except GoError Nat)
    (cursorAll : Nat → Nat → Option GoError) :
    Client × Option GoError :=
  if id = "" then (c, some "id cannot be empty")
  else
    match resultPtr with
    | none => (c, some "result cannot be nil")
    | some r =>
      match Client.getCollection env c collectionName with
      | (c2, .error e) => (c2, some e)
      | (c2, .ok coll) =>
        match find coll [("_id", BVal.str id)] with
        | .error e => (c2, some e)
        | .ok cursor => (c2, cursorAll cursor r)

/-- `Client.FindAll` (mongodb.go): reject a `nil` filter and a `nil` result
pointer, run `collection.Find(ctx, filter, ...)`, then
`cursor.All(ctx, result)`. -/
def Client.FindAll (env : DriverConn) (c : Client)
    (collectionName : String) (filter : Option BsonM) (resultPtr : Option Nat)
    (find : CollectionRef → BsonM → Except GoError Nat)
    (cursorAll : Nat → Nat → Option GoError) :
    Client × Option GoError :=
  match filter with
  | none => (c, some "filter cannot be nil")
  | some f =>
    match resultPtr with
    | none => (c, some "result cannot be nil")
    | some r =>
      match Client.getCollection env c collectionName with
      | (c2, .error e) => (c2, some e)
      | (c2, .ok coll) =>
        match find coll f with
        | .error e => (c2, some e)
        | .ok cursor => (c2, cursorAll cursor r)

/-- `Client.Exists` (mongodb.go): reject an empty id, run
`collection.CountDocuments(ctx, bson.M{"_id": id})`, and report
`count > 0`; on any failure return `false` with the error. -/
def Client.Exists (env : DriverConn) (c : Client)
    (collectionName : String) (id : String)
    (countDocuments : CollectionRef → BsonM → Except GoError Int) :
    Client × (Bool × Option GoError) :=
  if id = "" then (c, (false, some "id cannot be empty"))
  else
    match Client.getCollection env c collectionName with
    | (c2, .error e) => (c2, (false, some e))
    | (c2, .ok coll) =>
      match countDocuments coll [("_id", BVal.str id)] with
      | .error e => (c2, (false, some e))
      | .ok count => (c2, (decide (count > 0), none))

/-- `Client.ExistsCustom` (mongodb.go): reject a `nil` filter, run
`collection.CountDocuments(ctx, filter)`, and report `count > 0`. -/
def Client.ExistsCustom (env : DriverConn) (c : Client)
    (collectionName : String) (filter : Option BsonM)
    (countDocuments : CollectionRef → BsonM → Except GoError Int) :
    Client × (Bool × Option GoError) :=
  match filter with
  | none => (c, (false, some "filter cannot be nil"))
  | some f =>
    match Client.getCollection env c collectionName with
    | (c2, .error e) => (c2, (false, some e))
    | (c2, .ok coll) =>
      match countDocuments coll f with
      | .error e => (c2, (false, some e))
      | .ok count => (c2, (decide (count > 0), none))

/-- `Client.Aggregate` (mongodb.go): reject a `nil` pipeline and a `nil`
result pointer, run `collection.Aggregate(ctx, pipeline, ...)`, then
`cursor.All(ctx, result)`. -/
def Client.Aggregate (env : DriverConn) (c : Client)
    (collectionName : String) (pipeline : Option Nat) (resultPtr : Option Nat)
    (aggregate : CollectionRef → Nat → Except GoError Nat)
    (cursorAll : Nat → Nat → Option GoError) :
    Client × Option GoError :=
  match pipeline with
  | none => (c, some "pipeline cannot be nil")
  | some p =>
    match resultPtr with
    | none => (c, some "result cannot be nil")
    | some r =>
      match Client.getCollection env c collectionName with
      | (c2, .error e) => (c2, some e)
      | (c2, .ok coll) =>
        match aggregate coll p with
        | .error e => (c2, some e)
        | .ok cursor => (c2, cursorAll cursor r)

/-- `Client.Collection` (mongodb.go): `return c.getCollection(collectionName)`. -/
def Client.Collection (env : DriverConn) (c : Client)
    (collectionName : String) : Client × Except GoError CollectionRef :=
  Client.getCollection env c collectionName

/-- `Client.Database` (mongodb.go): obtain the client, then return
`client.Database(c.DatabaseName)` — a `*mongo.Database` modelled as the
client handle paired with the database name. -/
def Client.Database (env : DriverConn) (c : Client) :
    Client × Except GoError (Option MongoHandle × String) :=
  match Client.getClient env c with
  | (c2, .error e) => (c2, .error e)
  | (c2, .ok h) => (c2, .ok (h, c2.databaseName))

/-- `Client.RawClient` (mongodb.go): `return c.getClient()`. -/
def Client.RawClient (env : DriverConn) (c : Client) :
    Client × Except GoError (Option MongoHandle) :=
  Client.getClient env c

/-- `Client.DropDatabase` (mongodb.go): obtain the database, then return
`db.Drop(ctx)` verbatim; `drop` is the driver's `Drop` method. -/
def Client.DropDatabase (env : DriverConn) (c : Client)
    (drop : Option MongoHandle × String → Option GoError) :
    Client × Option GoError :=
  match Client.Database env c with
  | (c2, .error e) => (c2, some e)
  | (c2, .ok db) => (c2, drop db)

/-- `Client.Ping` (mongodb.go): obtain the client, then return
`client.Ping(ctx, nil)` verbatim; `ping` is the driver's `Ping` method. -/
def Client.Ping (env : DriverConn) (c : Client)
    (ping : Option MongoHandle → Option GoError) : Client × Option GoError :=
  match Client.getClient env c with
  | (c2, .error e) => (c2, some e)
  | (c2, .ok h) => (c2, ping h)

end Mongodb

namespace Mongo

/-- `mongo.MongoClient` (earlier revision, mongo.go): a plain value holding
the connection URL and database name; every method opens a fresh connection
via `client()` (which panics on connection failure, so only the successful
path is observable as a return value). -/
structure MongoClient where
  connectionUrl : String
  databaseName : String
deriving DecidableEq, Repr

/-- The `*mongo.Collection` reference an old-revision method hands to the
driver: database and collection name (the per-call client handle is fresh
and carries no information). -/
structure OldCollection where
  database : String
  collection : String
deriving DecidableEq, Repr

/-- `MongoClient.Add` (mongo.go): no argument validation — the payload
(`none` = Go `nil`) and collection name go straight to
`collection.InsertOne`, whose result is returned verbatim. -/
def MongoClient.Add {R : Type} (mc : MongoClient) (collectionName : String)
    (data : Option Nat)
    (insertOne : OldCollection → Option Nat → Except GoError R) :
    Except GoError R :=
  insertOne { database := mc.databaseName, collection := collectionName } data

/-- `MongoClient.AddMany` (mongo.go): no validation; the slice goes
straight to `collection.InsertMany`. -/
def MongoClient.AddMany {R : Type} (mc : MongoClient)
    (collectionName : String) (data : List Nat)
    (insertMany : OldCollection → List Nat → Except GoError R) :
    Except GoError R :=
  insertMany { database := mc.databaseName, collection := collectionName }
    data

/-- `MongoClient.Update` (mongo.go): no validation;
`collection.UpdateOne(ctx, bson.M{"id": id}, bson.D{{"$set", data}})`
verbatim — the filter field is the application-chosen `"id"`. -/
def MongoClient.Update {R : Type} (mc : MongoClient) (collectionName : String)
    (id : String) (data : Option Nat)
    (updateOne : OldCollection → BsonM → UpdateSpec → Except GoError R) :
    Except GoError R :=
  updateOne { database := mc.databaseName, collection := collectionName }
    [("id", BVal.str id)] (UpdateSpec.set data)

/-- `MongoClient.Delete` (mongo.go): no validation;
`collection.DeleteOne(ctx, bson.M{"id": id})` verbatim. -/
def MongoClient.Delete {R : Type} (mc : MongoClient) (collectionName : String)
    (id : String)
    (deleteOne : OldCollection → BsonM → Except GoError R) :
    Except GoError R :=
  deleteOne { database := mc.databaseName, collection := collectionName }
    [("id", BVal.str id)]

/-- `MongoClient.Get` (mongo.go): no validation; returns the
`SingleResult` of `collection.FindOne(ctx, bson.M{"id": id})`. -/
def MongoClient.Get {R : Type} (mc : MongoClient) (collectionName : String)
    (id : String) (findOne : OldCollection → BsonM → R) : R :=
  findOne { database := mc.databaseName, collection := collectionName }
    [("id", BVal.str id)]

/-- `MongoClient.GetAll` (mongo.go): no validation;
`collection.Find(ctx, bson.M{"id": id})` then `find.All(ctx, result)`. -/
def MongoClient.GetAll (mc : MongoClient) (collectionName : String)
    (id : String) (resultPtr : Option Nat)
    (find : OldCollection → BsonM → Except GoError Nat)
    (findAll : Nat → Option Nat → Option GoError) : Option GoError :=
  match find { database := mc.databaseName, collection := collectionName }
      [("id", BVal.str id)] with
  | .error e => some e
  | .ok cursor =>
    match findAll cursor resultPtr with
    | some e => some e
    | none => none

end Mongo

/-! ## Concrete fixtures used by witnesses and counterexamples -/

/-- A driver environment where every lifecycle call succeeds. -/
def envOk : Mongodb.DriverConn :=
  { connectResult := .ok { hid := 7 }, pingErr := none, disconnectErr := none }

/-- The ping-failure environment: `mongo.Connect` succeeds, the
verification `Ping` fails, and the cleanup `Disconnect` succeeds — the
input that exercises the shadowed `err` in `Client.connect`. -/
def envPingFail : Mongodb.DriverConn :=
  { connectResult := .ok { hid := 7 }
    pingErr := some "connection() error occurred during connection handshake"
    disconnectErr := none }

/-- A driver environment where `mongo.Connect` itself fails. -/
def envConnFail : Mongodb.DriverConn :=
  { connectResult := .error "server selection error"
    pingErr := none, disconnectErr := none }

/-- A connected final-revision client. -/
def stConn : Mongodb.Client :=
  { connectionUrl := "mongodb://localhost:27017", databaseName := "test"
    client := some { hid := 7 }, connected := true }

/-- A disconnected (never connected, or closed) final-revision client. -/
def stDisc : Mongodb.Client :=
  { connectionUrl := "mongodb://localhost:27017", databaseName := "test"
    client := none, connected := false }

/-- An earlier-revision client value. -/
def mcTest : Mongo.MongoClient :=
  { connectionUrl := "mongodb://localhost:27017", databaseName := "test" }

/-! ## Claims -/

/-- C2: the claim says that whenever `NewMongoClient` returns without
error, the returned client is live and verified (`connected = true`,
handle non-`nil`), and that a failed verification ping yields a `nil`
client with a non-`nil` error.  The code violates this: in
`Client.connect` the ping error is shadowed by the `Disconnect` cleanup
error, so when `Connect` succeeds, `Ping` fails and the cleanup
`Disconnect` succeeds, `NewMongoClient` returns a client with no error at
all — yet that client is disconnected (`connected = false`, handle
`nil`). -/
theorem C2_eager_connect_bug :
    Mongodb.NewMongoClient envPingFail "mongodb://localhost:27017" "test"
      = .ok { connectionUrl := "mongodb://localhost:27017"
              databaseName := "test", client := none, connected := false }
    ∧ Mongodb.Client.IsConnected
        { connectionUrl := "mongodb://localhost:27017", databaseName := "test"
          client := none, connected := false } = false := by
  constructor
  · rfl
  · rfl

/-- C5: the claim says a CRUD operation on a disconnected client first
re-establishes the connection, never issues the delegated driver call
through a `nil` handle, and fails only when reconnection fails.  The code
violates this through the same shadowed-error path: `getClient` on a
disconnected client returns a `nil` handle with a `nil` error when the
ping fails but the cleanup disconnect succeeds, and `Add` then hands the
driver a collection obtained through that `nil` handle (in Go, a
nil-pointer dereference inside the driver) while reporting no
reconnection error. -/
theorem C5_reconnect_bug :
    Mongodb.Client.getClient envPingFail stDisc = (stDisc, .ok none)
    ∧ (Mongodb.Client.Add envPingFail stDisc "test_collection" (some 1)
        (fun coll d => .ok (coll.handle, d))).2
      = .ok (none, 1) := by
  constructor
  · rfl
  · rfl

/-- C6: connection state is a single boolean flag faithfully reported —
after a connect whose `Connect` and `Ping` both succeed, `IsConnected`
reports `true` and `connect` reports no error; `Close` on a connected
client clears the flag and the handle, returns the driver's `Disconnect`
result, and `IsConnected` then reports `false`; `IsConnected` is exactly
the `connected` flag. -/
theorem C6_connection_flag (env : Mongodb.DriverConn) (c c2 : Mongodb.Client)
    (h : MongoHandle) (hc : env.connectResult = .ok h)
    (hp : env.pingErr = none) (h1 : c2.connected = true)
    (h2 : c2.client.isSome = true) :
    ((Mongodb.Client.connect env c).1.IsConnected = true
      ∧ (Mongodb.Client.connect env c).2 = none)
    ∧ (Mongodb.Client.Close env c2
        = ({ c2 with connected := false, client := none }, env.disconnectErr)
      ∧ (Mongodb.Client.Close env c2).1.IsConnected = false)
    ∧ Mongodb.Client.IsConnected c2 = c2.connected := by
  refine ⟨?_, ⟨?_, ?_⟩, rfl⟩
  · unfold Mongodb.Client.connect
    rw [hc, hp]
    by_cases hcc : c.connected <;>
      simp [hcc, Mongodb.Client.IsConnected]
  · obtain ⟨a, ha⟩ := Option.isSome_iff_exists.mp h2
    unfold Mongodb.Client.Close
    simp [h1, ha]
  · obtain ⟨a, ha⟩ := Option.isSome_iff_exists.mp h2
    unfold Mongodb.Client.Close
    simp [h1, ha, Mongodb.Client.IsConnected]

/-- Witness for C6 at a concrete connected client and an all-success
driver environment. -/
theorem C6_connection_flag_witness :
    ((Mongodb.Client.connect envOk stDisc).1.IsConnected = true
      ∧ (Mongodb.Client.connect envOk stDisc).2 = none)
    ∧ (Mongodb.Client.Close envOk stConn
        = ({ stConn with connected := false, client := none },
            envOk.disconnectErr)
      ∧ (Mongodb.Client.Close envOk stConn).1.IsConnected = false)
    ∧ Mongodb.Client.IsConnected stConn = stConn.connected :=
  C6_connection_flag envOk stDisc stConn { hid := 7 } rfl rfl rfl rfl

/-- C9: `Close` on a disconnected client returns `nil` and leaves the
state unchanged, and for every client state a second consecutive `Close`
is a no-op returning `nil` — two closes have the same effect as one. -/
theorem C9_close_idempotent (env env2 : Mongodb.DriverConn)
    (u d : String) (h : Option MongoHandle) (c : Mongodb.Client) :
    Mongodb.Client.Close env
        { connectionUrl := u, databaseName := d, client := h
          connected := false }
      = ({ connectionUrl := u, databaseName := d, client := h
           connected := false }, none)
    ∧ Mongodb.Client.Close env2 (Mongodb.Client.Close env c).1
      = ((Mongodb.Client.Close env c).1, none) := by
  constructor
  · unfold Mongodb.Client.Close
    simp
  · unfold Mongodb.Client.Close
    by_cases hcc : c.connected
    · cases hcl : c.client <;> simp [hcc, hcl]
    · simp [hcc]

/-- C7: `Exists` returns `true` iff the driver's `CountDocuments` over the
id filter reports a count greater than zero; when counting fails, or the
id is empty, it returns `false` together with a non-`nil` error. -/
theorem C7_exists_correct (env : Mongodb.DriverConn)
    (c c2 : Mongodb.Client) (n id : String) (coll : Mongodb.CollectionRef)
    (k : Int) (e : GoError)
    (cd : Mongodb.CollectionRef → BsonM → Except GoError Int)
    (hid : id ≠ "")
    (hcoll : Mongodb.Client.getCollection env c n = (c2, .ok coll)) :
    Mongodb.Client.Exists env c n id (fun _ _ => .ok k)
      = (c2, (decide (k > 0), none))
    ∧ Mongodb.Client.Exists env c n id (fun _ _ => .error e)
      = (c2, (false, some e))
    ∧ Mongodb.Client.Exists env c n "" cd
      = (c, (false, some "id cannot be empty")) := by
  refine ⟨?_, ?_, ?_⟩
  · unfold Mongodb.Client.Exists
    rw [hcoll]
    simp [hid]
  · unfold Mongodb.Client.Exists
    rw [hcoll]
    simp [hid]
  · unfold Mongodb.Client.Exists
    simp

/-- Witness for C7 on a connected client, a count of 2, and a failing
count. -/
theorem C7_exists_correct_witness :
    Mongodb.Client.Exists envOk stConn "test_collection" "1"
        (fun _ _ => .ok 2)
      = (stConn, (decide ((2 : Int) > 0), none))
    ∧ Mongodb.Client.Exists envOk stConn "test_collection" "1"
        (fun _ _ => .error "count failed")
      = (stConn, (false, some "count failed"))
    ∧ Mongodb.Client.Exists envOk stConn "test_collection" ""
        (fun _ _ => .ok 0)
      = (stConn, (false, some "id cannot be empty")) :=
  C7_exists_correct envOk stConn stConn "test_collection" "1"
    { handle := some { hid := 7 }, database := "test"
      collection := "test_collection" }
    2 "count failed" (fun _ _ => .ok 0) (by decide) (by rfl)

/-- C8: `AddMany` on a zero-length slice returns the error
`"data slice cannot be empty"` with the client state untouched and the
driver never consulted (the equation holds for every environment and every
driver oracle); every non-empty slice is forwarded to the driver's
`InsertMany` exactly as given. -/
theorem C8_addmany_empty_batch {R : Type} (env : Mongodb.DriverConn)
    (c c2 : Mongodb.Client) (n : String) (data : List Nat)
    (coll : Mongodb.CollectionRef)
    (ora0 ora : Mongodb.CollectionRef → List Nat → Except GoError R)
    (hne : data ≠ [])
    (hcoll : Mongodb.Client.getCollection env c n = (c2, .ok coll)) :
    Mongodb.Client.AddMany env c n [] ora0
      = (c, .error "data slice cannot be empty")
    ∧ Mongodb.Client.AddMany env c n data ora = (c2, ora coll data) := by
  constructor
  · unfold Mongodb.Client.AddMany
    simp
  · unfold Mongodb.Client.AddMany
    rw [hcoll]
    simp [List.length_eq_zero, hne]

/-- Witness for C8 with the slice `[10, 20]` on a connected client. -/
theorem C8_addmany_empty_batch_witness :
    Mongodb.Client.AddMany envOk stConn "test_collection" []
        (fun _ d => .ok d)
      = (stConn, .error "data slice cannot be empty")
    ∧ Mongodb.Client.AddMany envOk stConn "test_collection" [10, 20]
        (fun _ d => .ok d)
      = (stConn,
          (fun (_ : Mongodb.CollectionRef) (d : List Nat) =>
            (.ok d : Except GoError (List Nat)))
            { handle := some { hid := 7 }, database := "test"
              collection := "test_collection" }
            [10, 20]) :=
  C8_addmany_empty_batch envOk stConn stConn "test_collection" [10, 20]
    { handle := some { hid := 7 }, database := "test"
      collection := "test_collection" }
    (fun _ d => .ok d) (fun _ d => .ok d) (by decide) (by rfl)

/-- C1 counterexample: the final-revision `Client.Update`, run on a
connected client with id `"1"`, hands the driver's `UpdateOne` the filter
`{"_id": "1"}` — not the `{"id": "1"}` filter the claim requires (the
oracle here simply returns its filter and update arguments so the theorem
exhibits them). -/
theorem C1_counterexample :
    (Mongodb.Client.Update envOk stConn "test_collection" "1" (some 5)
        (fun _ f u => .ok (f, u))).2
      = .ok ([("_id", BVal.str "1")], UpdateSpec.set (some 5))
    ∧ ([("_id", BVal.str "1")] : BsonM) ≠ [("id", BVal.str "1")] := by
  constructor
  · rfl
  · decide

/-- C1 (amended): the earlier-revision `MongoClient` builds its identity
filters from the application-chosen `"id"` field, while the final-revision
`Client` builds them from the store's built-in `"_id"` field — for every
collection name and id, `MongoClient.Update`/`Delete`/`Get`/`GetAll` pass
the driver `{"id": id}`, and `Client.Update`/`Delete`/`Get`/`FindByID`/
`Exists` pass `{"_id": id}`. -/
theorem C1_identity_filters {R : Type} (env : Mongodb.DriverConn)
    (c c2 : Mongodb.Client) (n id : String) (d : Nat)
    (coll : Mongodb.CollectionRef) (mc : Mongo.MongoClient)
    (od rp : Option Nat)
    (uo : Mongodb.CollectionRef → BsonM → UpdateSpec → Except GoError R)
    (del : Mongodb.CollectionRef → BsonM → Except GoError R)
    (fo : Mongodb.CollectionRef → BsonM → R)
    (fi : Mongodb.CollectionRef → BsonM → Except GoError Nat)
    (ca : Nat → Nat → Option GoError)
    (cnt : Mongodb.CollectionRef → BsonM → Except GoError Int)
    (ouo : Mongo.OldCollection → BsonM → UpdateSpec → Except GoError R)
    (odel : Mongo.OldCollection → BsonM → Except GoError R)
    (ofo : Mongo.OldCollection → BsonM → R)
    (ofi : Mongo.OldCollection → BsonM → Except GoError Nat)
    (ofa : Nat → Option Nat → Option GoError)
    (hid : id ≠ "")
    (hcoll : Mongodb.Client.getCollection env c n = (c2, .ok coll)) :
    (Mongo.MongoClient.Update mc n id od ouo
        = ouo { database := mc.databaseName, collection := n }
            [("id", BVal.str id)] (UpdateSpec.set od)
      ∧ Mongo.MongoClient.Delete mc n id odel
        = odel { database := mc.databaseName, collection := n }
            [("id", BVal.str id)]
      ∧ Mongo.MongoClient.Get mc n id ofo
        = ofo { database := mc.databaseName, collection := n }
            [("id", BVal.str id)]
      ∧ Mongo.MongoClient.GetAll mc n id rp ofi ofa
        = (match ofi { database := mc.databaseName, collection := n }
              [("id", BVal.str id)] with
           | .error e => some e
           | .ok cursor =>
             match ofa cursor rp with
             | some e => some e
             | none => none))
    ∧ (Mongodb.Client.Update env c n id (some d) uo
        = (c2, uo coll [("_id", BVal.str id)] (UpdateSpec.set (some d)))
      ∧ Mongodb.Client.Delete env c n id del
        = (c2, del coll [("_id", BVal.str id)])
      ∧ Mongodb.Client.Get env c n id fo
        = (c2, .ok (fo coll [("_id", BVal.str id)]))
      ∧ Mongodb.Client.FindByID env c n id (some d) fi ca
        = (c2, match fi coll [("_id", BVal.str id)] with
               | .error e => some e
               | .ok cursor => ca cursor d)
      ∧ Mongodb.Client.Exists env c n id cnt
        = (c2, match cnt coll [("_id", BVal.str id)] with
               | .error e => (false, some e)
               | .ok count => (decide (count > 0), none))) := by
  refine ⟨⟨rfl, rfl, rfl, rfl⟩, ?_, ?_, ?_, ?_, ?_⟩
  · unfold Mongodb.Client.Update
    rw [hcoll]
    simp [hid]
  · unfold Mongodb.Client.Delete
    rw [hcoll]
    simp [hid]
  · unfold Mongodb.Client.Get
    rw [hcoll]
    simp [hid]
  · unfold Mongodb.Client.FindByID
    rw [hcoll]
    simp [hid]
    cases fi coll [("_id", BVal.str id)] <;> simp
  · unfold Mongodb.Client.Exists
    rw [hcoll]
    simp [hid]
    cases cnt coll [("_id", BVal.str id)] <;> simp

/-- Witness for C1 (amended) with id `"1"`: the oracles return the filter
they receive, so the equations exhibit `{"id": "1"}` for the earlier
revision and `{"_id": "1"}` for the final one. -/
theorem C1_identity_filters_witness :
    ((Mongo.MongoClient.Update mcTest "test_collection" "1" (some 5)
        (fun _ f _ => .ok f)
        = .ok [("id", BVal.str "1")]
      ∧ Mongo.MongoClient.Delete mcTest "test_collection" "1"
          (fun _ f => .ok f)
        = .ok [("id", BVal.str "1")]
      ∧ Mongo.MongoClient.Get mcTest "test_collection" "1" (fun _ f => f)
        = [("id", BVal.str "1")]
      ∧ Mongo.MongoClient.GetAll mcTest "test_collection" "1" (some 9)
          (fun _ _ => .ok 3) (fun _ _ => none)
        = none)
    ∧ (Mongodb.Client.Update envOk stConn "test_collection" "1" (some 5)
          (fun _ f _ => .ok f)
        = (stConn, .ok [("_id", BVal.str "1")])
      ∧ Mongodb.Client.Delete envOk stConn "test_collection" "1"
          (fun _ f => .ok f)
        = (stConn, .ok [("_id", BVal.str "1")])
      ∧ Mongodb.Client.Get envOk stConn "test_collection" "1" (fun _ f => f)
        = (stConn, .ok [("_id", BVal.str "1")])
      ∧ Mongodb.Client.FindByID envOk stConn "test_collection" "1" (some 5)
          (fun _ _ => .ok 3) (fun _ _ => none)
        = (stConn, none)
      ∧ Mongodb.Client.Exists envOk stConn "test_collection" "1"
          (fun _ _ => .ok 1)
        = (stConn, (true, none)))) :=
  C1_identity_filters envOk stConn stConn "test_collection" "1" 5
    { handle := some { hid := 7 }, database := "test"
      collection := "test_collection" }
    mcTest (some 5) (some 9)
    (fun _ f _ => .ok f) (fun _ f => .ok f) (fun _ f => f)
    (fun _ _ => .ok 3) (fun _ _ => none) (fun _ _ => .ok 1)
    (fun _ f _ => .ok f) (fun _ f => .ok f) (fun _ f => f)
    (fun _ _ => .ok 3) (fun _ _ => none)
    (by decide) (by rfl)

/-- C3 counterexample: construction does not forward the driver's error
unchanged — when `mongo.Connect` fails with `"server selection error"`,
`NewMongoClient` returns the wrapped error
`"failed to connect to MongoDB: server selection error"`, which differs
from the driver's error. -/
theorem C3_counterexample :
    Mongodb.NewMongoClient envConnFail "mongodb://localhost:27017" "test"
      = .error "failed to connect to MongoDB: server selection error"
    ∧ ("failed to connect to MongoDB: server selection error" : GoError)
      ≠ "server selection error" := by
  constructor
  · rfl
  · decide

/-- C3 (amended): every public operation of the final-revision client
returns a failing delegated driver call's error exactly as the driver
produced it — the CRUD operations, `Close`, `Ping`, `DropDatabase`, and
the accessors `Collection`, `Database` and `RawClient` (whose only
failing delegate is the internal connect) all forward the driver's error
unchanged — while construction is the one exception: `NewMongoClient`
wraps a connection failure as `"failed to connect to MongoDB: "` followed
by the driver's error. -/
theorem C3_errors_forwarded (env envF : Mongodb.DriverConn)
    (c c2 : Mongodb.Client) (n id u db : String) (d p r : Nat)
    (ds : List Nat) (f : BsonM) (e ec : GoError)
    (coll : Mongodb.CollectionRef) (h : Option MongoHandle)
    (cc : Mongodb.Client)
    (hid : id ≠ "") (hds : ds ≠ [])
    (hcoll : Mongodb.Client.getCollection env c n = (c2, .ok coll))
    (hu : u ≠ "") (hdb : db ≠ "")
    (hcf : envF.connectResult = .error ec)
    (hn : n ≠ "")
    (hgc : Mongodb.Client.getClient env c = (c2, .ok h))
    (hcc1 : cc.connected = true) (hcc2 : cc.client.isSome = true) :
    (Mongodb.Client.Add env c n (some d)
        (fun _ _ => (.error e : Except GoError Nat))).2 = .error e
    ∧ (Mongodb.Client.AddMany env c n ds
        (fun _ _ => (.error e : Except GoError Nat))).2 = .error e
    ∧ (Mongodb.Client.Update env c n id (some d)
        (fun _ _ _ => (.error e : Except GoError Nat))).2 = .error e
    ∧ (Mongodb.Client.UpdateCustom env c n (some f) (some d)
        (fun _ _ _ => (.error e : Except GoError Nat))).2 = .error e
    ∧ (Mongodb.Client.UpdateMany env c n (some f) (some d)
        (fun _ _ _ => (.error e : Except GoError Nat))).2 = .error e
    ∧ (Mongodb.Client.Delete env c n id
        (fun _ _ => (.error e : Except GoError Nat))).2 = .error e
    ∧ (Mongodb.Client.DeleteCustom env c n (some f)
        (fun _ _ => (.error e : Except GoError Nat))).2 = .error e
    ∧ (Mongodb.Client.DeleteMany env c n (some f)
        (fun _ _ => (.error e : Except GoError Nat))).2 = .error e
    ∧ (Mongodb.Client.FindByID env c n id (some r)
        (fun _ _ => .error e) (fun _ _ => none)).2 = some e
    ∧ (Mongodb.Client.FindAll env c n (some f) (some r)
        (fun _ _ => .error e) (fun _ _ => none)).2 = some e
    ∧ (Mongodb.Client.Exists env c n id
        (fun _ _ => .error e)).2 = (false, some e)
    ∧ (Mongodb.Client.ExistsCustom env c n (some f)
        (fun _ _ => .error e)).2 = (false, some e)
    ∧ (Mongodb.Client.Aggregate env c n (some p) (some r)
        (fun _ _ => .error e) (fun _ _ => none)).2 = some e
    ∧ (Mongodb.Client.Close env cc).2 = env.disconnectErr
    ∧ Mongodb.Client.Ping env c (fun _ => some e) = (c2, some e)
    ∧ Mongodb.Client.DropDatabase env c (fun _ => some e) = (c2, some e)
    ∧ Mongodb.Client.RawClient envF
        { connectionUrl := u, databaseName := db, client := none
          connected := false }
      = ({ connectionUrl := u, databaseName := db, client := none
           connected := false }, .error ec)
    ∧ Mongodb.Client.Database envF
        { connectionUrl := u, databaseName := db, client := none
          connected := false }
      = ({ connectionUrl := u, databaseName := db, client := none
           connected := false }, .error ec)
    ∧ Mongodb.Client.Collection envF
        { connectionUrl := u, databaseName := db, client := none
          connected := false } n
      = ({ connectionUrl := u, databaseName := db, client := none
           connected := false }, .error ec)
    ∧ Mongodb.NewMongoClient envF u db
      = .error ("failed to connect to MongoDB: " ++ ec) := by
  refine ⟨?_, ?_, ?_, ?_, ?_, ?_, ?_, ?_, ?_, ?_, ?_, ?_, ?_, ?_, ?_, ?_,
    ?_, ?_, ?_, ?_⟩
  · unfold Mongodb.Client.Add
    rw [hcoll]
  · unfold Mongodb.Client.AddMany
    rw [hcoll]
    simp [List.length_eq_zero, hds]
  · unfold Mongodb.Client.Update
    rw [hcoll]
    simp [hid]
  · unfold Mongodb.Client.UpdateCustom
    rw [hcoll]
  · unfold Mongodb.Client.UpdateMany
    rw [hcoll]
  · unfold Mongodb.Client.Delete
    rw [hcoll]
    simp [hid]
  · unfold Mongodb.Client.DeleteCustom
    rw [hcoll]
  · unfold Mongodb.Client.DeleteMany
    rw [hcoll]
  · unfold Mongodb.Client.FindByID
    rw [hcoll]
    simp [hid]
  · unfold Mongodb.Client.FindAll
    rw [hcoll]
  · unfold Mongodb.Client.Exists
    rw [hcoll]
    simp [hid]
  · unfold Mongodb.Client.ExistsCustom
    rw [hcoll]
  · unfold Mongodb.Client.Aggregate
    rw [hcoll]
  · obtain ⟨a, ha⟩ := Option.isSome_iff_exists.mp hcc2
    unfold Mongodb.Client.Close
    simp [hcc1, ha]
  · unfold Mongodb.Client.Ping
    rw [hgc]
  · unfold Mongodb.Client.DropDatabase Mongodb.Client.Database
    rw [hgc]
  · simp [Mongodb.Client.RawClient, Mongodb.Client.getClient,
      Mongodb.Client.connect, hcf]
  · simp [Mongodb.Client.Database, Mongodb.Client.getClient,
      Mongodb.Client.connect, hcf]
  · simp [Mongodb.Client.Collection, Mongodb.Client.getCollection,
      Mongodb.Client.validateParams, Mongodb.Client.getClient,
      Mongodb.Client.connect, hn, hcf]
  · unfold Mongodb.NewMongoClient Mongodb.Client.connect
    rw [hcf]
    simp [hu, hdb]

/-- Witness for C3 (amended) on a connected client with the driver error
`"write exception"` and a construction attempt whose `Connect` fails with
`"server selection error"`. -/
theorem C3_errors_forwarded_witness :
    (Mongodb.Client.Add envOk stConn "test_collection" (some 5)
        (fun _ _ => (.error "write exception" : Except GoError Nat))).2
      = .error "write exception"
    ∧ (Mongodb.Client.AddMany envOk stConn "test_collection" [10, 20]
        (fun _ _ => (.error "write exception" : Except GoError Nat))).2
      = .error "write exception"
    ∧ (Mongodb.Client.Update envOk stConn "test_collection" "1" (some 5)
        (fun _ _ _ => (.error "write exception" : Except GoError Nat))).2
      = .error "write exception"
    ∧ (Mongodb.Client.UpdateCustom envOk stConn "test_collection"
        (some [("name", BVal.str "a")]) (some 5)
        (fun _ _ _ => (.error "write exception" : Except GoError Nat))).2
      = .error "write exception"
    ∧ (Mongodb.Client.UpdateMany envOk stConn "test_collection"
        (some [("name", BVal.str "a")]) (some 5)
        (fun _ _ _ => (.error "write exception" : Except GoError Nat))).2
      = .error "write exception"
    ∧ (Mongodb.Client.Delete envOk stConn "test_collection" "1"
        (fun _ _ => (.error "write exception" : Except GoError Nat))).2
      = .error "write exception"
    ∧ (Mongodb.Client.DeleteCustom envOk stConn "test_collection"
        (some [("name", BVal.str "a")])
        (fun _ _ => (.error "write exception" : Except GoError Nat))).2
      = .error "write exception"
    ∧ (Mongodb.Client.DeleteMany envOk stConn "test_collection"
        (some [("name", BVal.str "a")])
        (fun _ _ => (.error "write exception" : Except GoError Nat))).2
      = .error "write exception"
    ∧ (Mongodb.Client.FindByID envOk stConn "test_collection" "1" (some 3)
        (fun _ _ => .error "write exception") (fun _ _ => none)).2
      = some "write exception"
    ∧ (Mongodb.Client.FindAll envOk stConn "test_collection"
        (some [("name", BVal.str "a")]) (some 3)
        (fun _ _ => .error "write exception") (fun _ _ => none)).2
      = some "write exception"
    ∧ (Mongodb.Client.Exists envOk stConn "test_collection" "1"
        (fun _ _ => .error "write exception")).2
      = (false, some "write exception")
    ∧ (Mongodb.Client.ExistsCustom envOk stConn "test_collection"
        (some [("name", BVal.str "a")])
        (fun _ _ => .error "write exception")).2
      = (false, some "write exception")
    ∧ (Mongodb.Client.Aggregate envOk stConn "test_collection" (some 4)
        (some 3) (fun _ _ => .error "write exception") (fun _ _ => none)).2
      = some "write exception"
    ∧ (Mongodb.Client.Close envOk stConn).2 = envOk.disconnectErr
    ∧ Mongodb.Client.Ping envOk stConn (fun _ => some "write exception")
      = (stConn, some "write exception")
    ∧ Mongodb.Client.DropDatabase envOk stConn
        (fun _ => some "write exception")
      = (stConn, some "write exception")
    ∧ Mongodb.Client.RawClient envConnFail stDisc
      = (stDisc, .error "server selection error")
    ∧ Mongodb.Client.Database envConnFail stDisc
      = (stDisc, .error "server selection error")
    ∧ Mongodb.Client.Collection envConnFail stDisc "test_collection"
      = (stDisc, .error "server selection error")
    ∧ Mongodb.NewMongoClient envConnFail "mongodb://localhost:27017" "test"
      = .error ("failed to connect to MongoDB: " ++ "server selection error") :=
  C3_errors_forwarded envOk envConnFail stConn stConn "test_collection" "1"
    "mongodb://localhost:27017" "test" 5 4 3 [10, 20]
    [("name", BVal.str "a")] "write exception" "server selection error"
    { handle := some { hid := 7 }, database := "test"
      collection := "test_collection" }
    (some { hid := 7 }) stConn
    (by decide) (by decide) (by rfl) (by decide) (by decide) (by rfl)
    (by decide) (by rfl) (by rfl) (by rfl)

/-- C4 counterexample: the earlier-revision `MongoClient.Add`, called with
an empty collection name and a `nil` payload, performs no validation at
all — the driver's `InsertOne` is invoked (here returning `7`) and its
result is returned, instead of the validation error the claim requires for
every revision. -/
theorem C4_counterexample :
    Mongo.MongoClient.Add mcTest "" none (fun _ _ => .ok 7) = .ok 7 := by
  rfl

/-- C4 (amended): in the final revision only, argument validation precedes
every driver call — an empty collection name, an empty id, a `nil`
payload, a `nil` filter, a `nil` pipeline or a `nil` result pointer makes
the method return the corresponding validation error with the client
state untouched, for every driver environment and every driver oracle
(so no collection handle is obtained and no driver operation runs); the
earlier revisions perform no such validation. -/
theorem C4_validation_first {R : Type} (env : Mongodb.DriverConn)
    (c : Mongodb.Client) (n : String) (d r p : Nat) (ds : List Nat)
    (f : BsonM)
    (o1 : Mongodb.CollectionRef → Nat → Except GoError R)
    (o2 : Mongodb.CollectionRef → List Nat → Except GoError R)
    (o3 : Mongodb.CollectionRef → BsonM → UpdateSpec → Except GoError R)
    (o4 : Mongodb.CollectionRef → BsonM → Except GoError R)
    (o5 : Mongodb.CollectionRef → BsonM → R)
    (o6 : Mongodb.CollectionRef → BsonM → Except GoError Nat)
    (o7 : Nat → Nat → Option GoError)
    (o8 : Mongodb.CollectionRef → BsonM → Except GoError Int)
    (o9 : Mongodb.CollectionRef → Nat → Except GoError Nat) :
    (Mongodb.Client.Add env c "" (some d) o1
        = (c, .error "collection name cannot be empty")
      ∧ Mongodb.Client.AddMany env c "" (d :: ds) o2
        = (c, .error "collection name cannot be empty")
      ∧ Mongodb.Client.Update env c "" "1" (some d) o3
        = (c, .error "collection name cannot be empty")
      ∧ Mongodb.Client.UpdateCustom env c "" (some f) (some d) o3
        = (c, .error "collection name cannot be empty")
      ∧ Mongodb.Client.UpdateMany env c "" (some f) (some d) o3
        = (c, .error "collection name cannot be empty")
      ∧ Mongodb.Client.Delete env c "" "1" o4
        = (c, .error "collection name cannot be empty")
      ∧ Mongodb.Client.DeleteCustom env c "" (some f) o4
        = (c, .error "collection name cannot be empty")
      ∧ Mongodb.Client.DeleteMany env c "" (some f) o4
        = (c, .error "collection name cannot be empty")
      ∧ Mongodb.Client.Get env c "" "1" o5
        = (c, .error "collection name cannot be empty")
      ∧ Mongodb.Client.GetCustom env c "" (some f) o5
        = (c, .error "collection name cannot be empty")
      ∧ Mongodb.Client.FindByID env c "" "1" (some r) o6 o7
        = (c, some "collection name cannot be empty")
      ∧ Mongodb.Client.FindAll env c "" (some f) (some r) o6 o7
        = (c, some "collection name cannot be empty")
      ∧ Mongodb.Client.Exists env c "" "1" o8
        = (c, (false, some "collection name cannot be empty"))
      ∧ Mongodb.Client.ExistsCustom env c "" (some f) o8
        = (c, (false, some "collection name cannot be empty"))
      ∧ Mongodb.Client.Aggregate env c "" (some p) (some r) o9 o7
        = (c, some "collection name cannot be empty"))
    ∧ (Mongodb.Client.Update env c n "" (some d) o3
        = (c, .error "id cannot be empty")
      ∧ Mongodb.Client.Delete env c n "" o4
        = (c, .error "id cannot be empty")
      ∧ Mongodb.Client.Get env c n "" o5
        = (c, .error "id cannot be empty")
      ∧ Mongodb.Client.FindByID env c n "" (some r) o6 o7
        = (c, some "id cannot be empty")
      ∧ Mongodb.Client.Exists env c n "" o8
        = (c, (false, some "id cannot be empty")))
    ∧ (Mongodb.Client.Add env c n none o1
        = (c, .error "data cannot be nil")
      ∧ Mongodb.Client.Update env c n "1" none o3
        = (c, .error "data cannot be nil")
      ∧ Mongodb.Client.UpdateCustom env c n (some f) none o3
        = (c, .error "data cannot be nil")
      ∧ Mongodb.Client.UpdateMany env c n (some f) none o3
        = (c, .error "data cannot be nil"))
    ∧ (Mongodb.Client.UpdateCustom env c n none (some d) o3
        = (c, .error "filter cannot be nil")
      ∧ Mongodb.Client.UpdateMany env c n none (some d) o3
        = (c, .error "filter cannot be nil")
      ∧ Mongodb.Client.DeleteCustom env c n none o4
        = (c, .error "filter cannot be nil")
      ∧ Mongodb.Client.DeleteMany env c n none o4
        = (c, .error "filter cannot be nil")
      ∧ Mongodb.Client.GetCustom env c n none o5
        = (c, .error "filter cannot be nil")
      ∧ Mongodb.Client.FindAll env c n none (some r) o6 o7
        = (c, some "filter cannot be nil")
      ∧ Mongodb.Client.ExistsCustom env c n none o8
        = (c, (false, some "filter cannot be nil")))
    ∧ (Mongodb.Client.FindByID env c n "1" none o6 o7
        = (c, some "result cannot be nil")
      ∧ Mongodb.Client.FindAll env c n (some f) none o6 o7
        = (c, some "result cannot be nil")
      ∧ Mongodb.Client.Aggregate env c n (some p) none o9 o7
        = (c, some "result cannot be nil")
      ∧ Mongodb.Client.Aggregate env c n none (some r) o9 o7
        = (c, some "pipeline cannot be nil")) :=
  ⟨⟨rfl, rfl, rfl, rfl, rfl, rfl, rfl, rfl, rfl, rfl, rfl, rfl, rfl, rfl,
    rfl⟩,
   ⟨rfl, rfl, rfl, rfl, rfl⟩,
   ⟨rfl, rfl, rfl, rfl⟩,
   ⟨rfl, rfl, rfl, rfl, rfl, rfl, rfl⟩,
   ⟨rfl, rfl, rfl, rfl⟩⟩
